import Mathlib

/-!
Verification development for the PetStore WebSocket messaging core
(TypeScript sources under src/): the circuit breaker, the priority
message queue, the per-key rate limiter, and the WebSocket connection
manager (pending-request correlation, request dispatch, broadcast,
error responses).

Modelling conventions:
* `Date.now()` / timer scheduling are made explicit: time-dependent
  functions take the observed clock value as an argument, and timer
  firings are explicit events of a step relation.
* `crypto.randomUUID()` is modelled as a fresh-identifier supply (a
  counter `nextId` whose freshness invariant — every identifier handed
  out so far is below the counter — replaces probabilistic uniqueness).
* Machine numbers are `Nat` (all quantities involved are nonnegative
  counters or epoch milliseconds; no overflow is reachable in the
  claims' ranges).
* External libraries (zlib's deflate/inflate, JSON.stringify/parse)
  are abstracted as codec parameters together with their round-trip
  contracts; the repository's own wrapper code is embedded faithfully
  on top of them.
-/

namespace PetStore

/-! ## Circuit breaker (`src/unnamed/part_018`, class `CircuitBreaker`) -/

/-- `CircuitState` enum from the source. -/
inductive CircuitState
  | CLOSED
  | OPEN
  | HALF_OPEN
  deriving DecidableEq

/-- The fields of `CircuitBreakerConfig` relevant to the execute path
(`resetTimeout` and `monitorInterval` only drive timers that are not
involved in a single `execute` call). -/
structure CircuitBreakerConfig where
  failureThreshold : Nat
  halfOpenMaxCalls : Nat
  deriving DecidableEq

/-- The mutable state of a `CircuitBreaker` touched by `execute`:
`state`, `failures`, `halfOpenCalls`, plus the `successfulCalls` /
`failedCalls` counters mutated by `onSuccess` / `onFailure`
(`lastStateChange`, the Prometheus registries and the latency array are
observability-only and omitted). -/
structure CBState where
  state : CircuitState
  failures : Nat
  halfOpenCalls : Nat
  successfulCalls : Nat
  failedCalls : Nat
  deriving DecidableEq

/-- How a single `execute` call returns to its caller (absent a
fallback; a fallback only replaces the thrown error with the fallback's
result and does not change the state updates). -/
inductive ExecResult
  | success
  | errorOpen
  | errorAtCapacity
  | errorOperation
  deriving DecidableEq

/-- `CircuitBreaker.onSuccess` (part_018 lines 118–125): resets
`failures` and `halfOpenCalls` and closes the breaker only when the
state is `HALF_OPEN`; always increments `successfulCalls`. -/
def onSuccess (s : CBState) : CBState :=
  let s1 :=
    if s.state = CircuitState.HALF_OPEN then
      { s with state := CircuitState.CLOSED, failures := 0, halfOpenCalls := 0 }
    else s
  { s1 with successfulCalls := s1.successfulCalls + 1 }

/-- `CircuitBreaker.onFailure` (part_018 lines 127–138): increments
`failures` and `failedCalls`; transitions to `OPEN` when the state is
`CLOSED` with `failures ≥ failureThreshold`, or whenever the state is
`HALF_OPEN`. -/
def onFailure (cfg : CircuitBreakerConfig) (s : CBState) : CBState :=
  let s1 := { s with failures := s.failures + 1, failedCalls := s.failedCalls + 1 }
  if (s1.state = CircuitState.CLOSED ∧ s1.failures ≥ cfg.failureThreshold)
      ∨ s1.state = CircuitState.HALF_OPEN then
    { s1 with state := CircuitState.OPEN }
  else s1

/-- The catch block of `CircuitBreaker.execute` (part_018 lines
104–115): when the state is `HALF_OPEN` and `halfOpenCalls > 0`,
decrements `halfOpenCalls`; then runs `onFailure` and propagates the
error (or, with a fallback, returns the fallback's result). -/
def executeCatch (cfg : CircuitBreakerConfig) (s : CBState) (e : ExecResult) :
    CBState × ExecResult :=
  let s1 :=
    if s.state = CircuitState.HALF_OPEN ∧ s.halfOpenCalls > 0 then
      { s with halfOpenCalls := s.halfOpenCalls - 1 }
    else s
  (onFailure cfg s1, e)

/-- `CircuitBreaker.execute` (part_018 lines 82–116) on an operation
whose outcome is `opSucceeds`. In `OPEN`, the try block throws
`Circuit breaker is OPEN`; in `HALF_OPEN` at `halfOpenMaxCalls`
capacity it throws the at-capacity error — both throws land in the
same catch block as an operation failure. Otherwise a `HALF_OPEN` call
increments `halfOpenCalls`, the operation runs, and success goes
through `onSuccess` while failure goes through the catch block. -/
def execute (cfg : CircuitBreakerConfig) (s : CBState) (opSucceeds : Bool) :
    CBState × ExecResult :=
  if s.state = CircuitState.OPEN then
    executeCatch cfg s ExecResult.errorOpen
  else if s.state = CircuitState.HALF_OPEN ∧ s.halfOpenCalls ≥ cfg.halfOpenMaxCalls then
    executeCatch cfg s ExecResult.errorAtCapacity
  else
    let s1 :=
      if s.state = CircuitState.HALF_OPEN then
        { s with halfOpenCalls := s.halfOpenCalls + 1 }
      else s
    if opSucceeds then (onSuccess s1, ExecResult.success)
    else executeCatch cfg s1 ExecResult.errorOperation

/-- A freshly constructed breaker: `CLOSED`, all counters zero. -/
def cbInit : CBState :=
  { state := CircuitState.CLOSED, failures := 0, halfOpenCalls := 0
    successfulCalls := 0, failedCalls := 0 }

/-- Run `execute` over a list of operation outcomes, keeping only the
evolving breaker state. -/
def executeRun (cfg : CircuitBreakerConfig) (s : CBState) : List Bool → CBState
  | [] => s
  | b :: bs => executeRun cfg (execute cfg s b).1 bs

example :
    (executeRun ⟨3, 2⟩ cbInit [false, false, false]).state = CircuitState.OPEN := by
  decide

/-- C2 counterexample: with `failureThreshold = 2`, a failure followed
by a success leaves `failures` at 1 (not reset to 0, because
`onSuccess` resets the counter only in `HALF_OPEN`), and the trace
fail–success–fail opens the breaker even though the failures were not
consecutive. -/
theorem circuitBreaker_closed_success_reset_counterexample :
    (execute ⟨2, 1⟩ (executeRun ⟨2, 1⟩ cbInit [false]) true).1.failures = 1 ∧
    (executeRun ⟨2, 1⟩ cbInit [false, true, false]).state = CircuitState.OPEN := by
  decide

/-- C2 amended: in `CLOSED`, a successful `execute` leaves the breaker
`CLOSED` with the failure counter unchanged (it is not reset to zero:
`onSuccess` resets it only on the `HALF_OPEN → CLOSED` transition), and
a failed `execute` increments the counter and opens the breaker exactly
when the cumulative count reaches `failureThreshold`, regardless of
interleaved successes. -/
theorem circuitBreaker_failure_count_amended (cfg : CircuitBreakerConfig) (s : CBState)
    (h : s.state = CircuitState.CLOSED) :
    (execute cfg s true).1.state = CircuitState.CLOSED ∧
    (execute cfg s true).1.failures = s.failures ∧
    (execute cfg s false).1.failures = s.failures + 1 ∧
    ((execute cfg s false).1.state = CircuitState.OPEN ↔
      s.failures + 1 ≥ cfg.failureThreshold) := by
  simp only [execute, executeCatch, onSuccess, onFailure, h]
  refine ⟨?_, ?_, ?_, ?_⟩ <;>
    · split_ifs <;> simp_all

/-- Witness for `circuitBreaker_failure_count_amended` at the initial
breaker state with `failureThreshold = 2`. -/
theorem circuitBreaker_failure_count_amended_witness :
    (execute ⟨2, 1⟩ cbInit true).1.state = CircuitState.CLOSED ∧
    (execute ⟨2, 1⟩ cbInit true).1.failures = cbInit.failures ∧
    (execute ⟨2, 1⟩ cbInit false).1.failures = cbInit.failures + 1 ∧
    ((execute ⟨2, 1⟩ cbInit false).1.state = CircuitState.OPEN ↔
      cbInit.failures + 1 ≥ (2 : Nat)) :=
  circuitBreaker_failure_count_amended ⟨2, 1⟩ cbInit rfl

/-- C3 counterexample: a breaker in `HALF_OPEN` with
`halfOpenCalls = halfOpenMaxCalls = 1` receives one more `execute`
call; the at-capacity throw is caught by `execute`'s own catch block,
so the failure counter becomes 1 and the breaker transitions to `OPEN`
— contradicting the claim that the rejection increments nothing and
leaves the state unchanged. -/
theorem circuitBreaker_halfOpen_capacity_counterexample :
    (execute ⟨2, 1⟩ ⟨CircuitState.HALF_OPEN, 0, 1, 0, 0⟩ true).1.failures = 1 ∧
    (execute ⟨2, 1⟩ ⟨CircuitState.HALF_OPEN, 0, 1, 0, 0⟩ true).1.state =
      CircuitState.OPEN := by
  decide

/-- C3 amended: in `HALF_OPEN` at `halfOpenMaxCalls` capacity, an
additional `execute` call returns the at-capacity error without
consulting the wrapped operation (the result is independent of the
operation's outcome), but the rejection travels through the failure
path: `halfOpenCalls` is decremented, the failure counter increments,
and the breaker transitions to `OPEN`. -/
theorem circuitBreaker_halfOpen_capacity_amended (cfg : CircuitBreakerConfig)
    (s : CBState) (b : Bool)
    (h1 : s.state = CircuitState.HALF_OPEN)
    (h2 : s.halfOpenCalls ≥ cfg.halfOpenMaxCalls) :
    (execute cfg s b).2 = ExecResult.errorAtCapacity ∧
    execute cfg s b = execute cfg s true ∧
    (execute cfg s b).1.state = CircuitState.OPEN ∧
    (execute cfg s b).1.failures = s.failures + 1 ∧
    (execute cfg s b).1.halfOpenCalls = s.halfOpenCalls - 1 := by
  simp only [execute, executeCatch, onFailure, h1, h2]
  rcases Nat.eq_zero_or_pos s.halfOpenCalls with h0 | h0 <;>
    simp_all

/-- Witness for `circuitBreaker_halfOpen_capacity_amended` at a
concrete `HALF_OPEN` state at capacity, and with `b = false`. -/
theorem circuitBreaker_halfOpen_capacity_amended_witness :
    (execute ⟨2, 1⟩ ⟨CircuitState.HALF_OPEN, 0, 1, 0, 0⟩ false).2 =
      ExecResult.errorAtCapacity ∧
    execute ⟨2, 1⟩ ⟨CircuitState.HALF_OPEN, 0, 1, 0, 0⟩ false =
      execute ⟨2, 1⟩ ⟨CircuitState.HALF_OPEN, 0, 1, 0, 0⟩ true ∧
    (execute ⟨2, 1⟩ ⟨CircuitState.HALF_OPEN, 0, 1, 0, 0⟩ false).1.state =
      CircuitState.OPEN ∧
    (execute ⟨2, 1⟩ ⟨CircuitState.HALF_OPEN, 0, 1, 0, 0⟩ false).1.failures = 0 + 1 ∧
    (execute ⟨2, 1⟩ ⟨CircuitState.HALF_OPEN, 0, 1, 0, 0⟩ false).1.halfOpenCalls =
      1 - 1 :=
  circuitBreaker_halfOpen_capacity_amended ⟨2, 1⟩
    ⟨CircuitState.HALF_OPEN, 0, 1, 0, 0⟩ false rfl (by decide)

/-! ## Message queue (`src/unnamed/part_017`, class `MessageQueue`)

The Redis lists `queue:high` / `queue:medium` / `queue:low` are
embedded as Lean lists (`LPUSH` = cons at the head, `RPOP` = take the
last element), `crypto.randomUUID()` as the `nextId` counter, and the
events the class `emit`s as an append-only log in the state.
`QueueMessage.timestamp` is set but never read by the class and is
omitted; the Prometheus gauges/counters/histogram are observability
only. -/

/-- `MessagePriority` enum; `Object.values` iterates it in declaration
order high, medium, low. -/
inductive MessagePriority
  | high
  | medium
  | low
  deriving DecidableEq

/-- `QueueMessage` (minus the unread `timestamp`). -/
structure QueueMessage (α : Type) where
  id : Nat
  data : α
  priority : MessagePriority
  retryCount : Nat
  maxRetries : Nat
  deriving DecidableEq

/-- The fields of `MessageQueueConfig` that steer queue logic
(`redisUrl`, `processingTimeout`, `retryDelay` and `concurrency` only
configure the connection and timer durations; concurrency 1 — the
configuration of the claims — is the sequential consumption modelled by
`consumeStep`/`drainOrder`). -/
structure MessageQueueConfig where
  maxQueueSize : Nat
  backpressureThreshold : Nat
  maxRetries : Nat
  deriving DecidableEq

/-- The events emitted by `MessageQueue` that the claims mention
(`emit('error', …)` and `emit('failed', …)` carry the message; the log
records the message id). -/
inductive MQEvent
  | backpressure_start
  | backpressure_end
  | errorEvt (id : Nat)
  | failed (id : Nat)
  | processing (id : Nat)
  deriving DecidableEq

/-- Queue state: the three Redis lists (head = most recently `LPUSH`ed),
the `backpressureActive` flag, the fresh-id counter, and the emitted
event log. -/
structure MQState (α : Type) where
  high : List (QueueMessage α)
  medium : List (QueueMessage α)
  low : List (QueueMessage α)
  backpressureActive : Bool
  nextId : Nat
  events : List MQEvent
  deriving DecidableEq

/-- The empty queue of a freshly constructed `MessageQueue`. -/
def mqInit : MQState Nat :=
  { high := [], medium := [], low := [], backpressureActive := false
    nextId := 0, events := [] }

/-- `MessageQueue.getQueueSize` (part_017 lines 254–261): total length
over all three priority lists. -/
def getQueueSize {α : Type} (s : MQState α) : Nat :=
  s.high.length + s.medium.length + s.low.length

/-- Redis `LPUSH` onto the priority-specific list. -/
def lpush {α : Type} (s : MQState α) (m : QueueMessage α) : MQState α :=
  match m.priority with
  | MessagePriority.high => { s with high := m :: s.high }
  | MessagePriority.medium => { s with medium := m :: s.medium }
  | MessagePriority.low => { s with low := m :: s.low }

/-- Redis `RPOP`: remove and return the last element, if any. -/
def rpop {β : Type} (l : List β) : Option (β × List β) :=
  match l.getLast? with
  | none => none
  | some m => some (m, l.dropLast)

/-- `MessageQueue.enqueue` (part_017 lines 121–148): throws
`Queue is full` when the observed size is at the maximum; when the
observed size is at or above `backpressureThreshold`, sets the
backpressure flag and emits `backpressure_start` (unconditionally —
the flag is not consulted); then pushes a fresh message with
`retryCount := 0` and returns its id. -/
def enqueue {α : Type} (cfg : MessageQueueConfig) (s : MQState α) (data : α)
    (priority : MessagePriority) (maxRetries : Nat) :
    Except String (MQState α × Nat) :=
  let queueSize := getQueueSize s
  if queueSize ≥ cfg.maxQueueSize then
    Except.error "Queue is full"
  else
    let s1 :=
      if queueSize ≥ cfg.backpressureThreshold then
        { s with backpressureActive := true
                 events := s.events ++ [MQEvent.backpressure_start] }
      else s
    let m : QueueMessage α :=
      { id := s1.nextId, data := data, priority := priority
        retryCount := 0, maxRetries := maxRetries }
    Except.ok ({ lpush s1 m with nextId := s1.nextId + 1 }, s1.nextId)

/-- The state after a successful `enqueue`; returns the input state
unchanged if `enqueue` throws (used only to phrase concrete scenarios
in which the enqueue succeeds). -/
def enqueueD {α : Type} (cfg : MessageQueueConfig) (s : MQState α) (data : α)
    (priority : MessagePriority) (maxRetries : Nat) : MQState α :=
  match enqueue cfg s data priority maxRetries with
  | Except.ok (s', _) => s'
  | Except.error _ => s

/-- `MessageQueue.dequeue` (part_017 lines 150–163): `RPOP` the queues
in priority order high, medium, low; return the first hit. -/
def dequeue {α : Type} (s : MQState α) : Option (QueueMessage α × MQState α) :=
  match rpop s.high with
  | some (m, rest) => some (m, { s with high := rest })
  | none =>
    match rpop s.medium with
    | some (m, rest) => some (m, { s with medium := rest })
    | none =>
      match rpop s.low with
      | some (m, rest) => some (m, { s with low := rest })
      | none => none

/-- `MessageQueue.handleMessageError` (part_017 lines 237–252): emits
`error`; when `retryCount < maxRetries` it increments the local copy's
`retryCount`, then re-enqueues via `this.enqueue(message.data,
message.priority, message.maxRetries)` — which builds a fresh message
with `retryCount := 0`, discarding the increment; otherwise emits
`failed`. A `Queue is full` throw from the nested enqueue propagates. -/
def handleMessageError {α : Type} (cfg : MessageQueueConfig) (s : MQState α)
    (m : QueueMessage α) : Except String (MQState α) :=
  let s1 := { s with events := s.events ++ [MQEvent.errorEvt m.id] }
  if m.retryCount < m.maxRetries then
    (enqueue cfg s1 m.data m.priority m.maxRetries).map Prod.fst
  else
    Except.ok { s1 with events := s1.events ++ [MQEvent.failed m.id] }

/-- `MessageQueue.processMessage` (part_017 lines 192–229) with the
listeners' combined outcome `succeeds` (false = a listener threw, or
the processing-timeout guard fired, both of which reach
`handleMessageError`): emits `processing`, and on success releases
backpressure (emitting `backpressure_end`) when the flag is active and
the size has dropped below the threshold. -/
def processMessage {α : Type} (cfg : MessageQueueConfig) (s : MQState α)
    (m : QueueMessage α) (succeeds : Bool) : Except String (MQState α) :=
  let s0 := { s with events := s.events ++ [MQEvent.processing m.id] }
  if succeeds then
    Except.ok
      (if s0.backpressureActive = true ∧ getQueueSize s0 < cfg.backpressureThreshold then
        { s0 with backpressureActive := false
                  events := s0.events ++ [MQEvent.backpressure_end] }
      else s0)
  else
    handleMessageError cfg s0 m

/-- One iteration of the `startProcessing` loop (part_017 lines
165–190) at concurrency 1: dequeue the next message (a no-op when all
lists are empty) and process it to completion with outcome
`succeeds`. -/
def consumeStep {α : Type} (cfg : MessageQueueConfig) (s : MQState α)
    (succeeds : Bool) : Except String (MQState α) :=
  match dequeue s with
  | none => Except.ok s
  | some (m, s1) => processMessage cfg s1 m succeeds

/-- Iterated `consumeStep` over a list of per-message outcomes. -/
def consumeRun {α : Type} (cfg : MessageQueueConfig) (s : MQState α) :
    List Bool → Except String (MQState α)
  | [] => Except.ok s
  | b :: bs =>
    match consumeStep cfg s b with
    | Except.ok s1 => consumeRun cfg s1 bs
    | Except.error e => Except.error e

/-- The order in which messages are handed to the `message` listeners
by the concurrency-1 loop when every message processes successfully
(`fuel` bounds the iteration). -/
def drainOrder {α : Type} (cfg : MessageQueueConfig) :
    Nat → MQState α → List (QueueMessage α)
  | 0, _ => []
  | fuel + 1, s =>
    match dequeue s with
    | none => []
    | some (m, s1) =>
      match processMessage cfg s1 m true with
      | Except.ok s2 => m :: drainOrder cfg fuel s2
      | Except.error _ => [m]

/-- Number of `failed` events in the log. -/
def mqFailedCount {α : Type} (s : MQState α) : Nat :=
  s.events.countP (fun e =>
    match e with
    | MQEvent.failed _ => true
    | _ => false)

/-- All queued messages, over all priority lists. -/
def mqMessages {α : Type} (s : MQState α) : List (QueueMessage α) :=
  s.high ++ s.medium ++ s.low

/-- Evaluate a Boolean check on the state inside a successful result
(`false` when the computation threw). -/
def exceptCheck {α : Type} (r : Except String (MQState α))
    (p : MQState α → Bool) : Bool :=
  match r with
  | Except.ok s => p s
  | Except.error _ => false

/-- `rpop` on a list with a known last element. -/
theorem rpop_concat {β : Type} (l : List β) (a : β) :
    rpop (l ++ [a]) = some (a, l) := by
  simp [rpop, List.getLast?_concat, List.dropLast_concat]

/-- C1: the retry cap is defeated by the re-enqueue. A message enqueued
with `maxRetries = 1` whose processing always fails is re-enqueued with
`retryCount = 0` (not incremented) after the first failure, and after
failing `maxRetries` more times (two failures total) no `failed` event
has been emitted and the message is still present in its priority list
— `handleMessageError` increments only a local copy's `retryCount` and
then rebuilds a fresh message with `retryCount := 0` via `enqueue`. -/
theorem messageQueue_retry_reset_bug :
    exceptCheck
      (consumeRun ⟨10, 10, 3⟩
        (enqueueD ⟨10, 10, 3⟩ mqInit 7 MessagePriority.medium 1) [false])
      (fun s => ((mqMessages s).map (fun m => m.retryCount) == [0]) &&
        (mqFailedCount s == 0)) = true ∧
    exceptCheck
      (consumeRun ⟨10, 10, 3⟩
        (enqueueD ⟨10, 10, 3⟩ mqInit 7 MessagePriority.medium 1) [false, false])
      (fun s => (mqFailedCount s == 0) &&
        ((mqMessages s).map (fun m => (m.data, m.retryCount)) == [(7, 0)])) =
      true := by
  decide

/-- C4 counterexample: with `backpressureThreshold = 1`, three
consecutive enqueues from the empty queue emit `backpressure_start`
twice — the second and third enqueue both observe size ≥ threshold and
the emit is not guarded by the already-active flag, with no
`backpressure_end` in between. -/
theorem messageQueue_backpressure_start_counterexample :
    (enqueueD ⟨10, 1, 3⟩
      (enqueueD ⟨10, 1, 3⟩
        (enqueueD ⟨10, 1, 3⟩ mqInit 1 MessagePriority.medium 3)
        2 MessagePriority.medium 3)
      3 MessagePriority.medium 3).events =
    [MQEvent.backpressure_start, MQEvent.backpressure_start] := by
  decide

/-- C4 amended: a successful `enqueue` (observed size below
`maxQueueSize`) emits `backpressure_start` exactly when the observed
size is at or above `backpressureThreshold`, regardless of whether the
backpressure flag is already active (the emit is not limited to the
transition), and sets the flag in exactly that case. -/
theorem messageQueue_backpressure_start_amended (cfg : MessageQueueConfig)
    (s : MQState Nat) (d : Nat) (p : MessagePriority) (mr : Nat)
    (h : getQueueSize s < cfg.maxQueueSize) :
    (enqueue cfg s d p mr).isOk = true ∧
    (enqueueD cfg s d p mr).events =
      (if cfg.backpressureThreshold ≤ getQueueSize s then
        s.events ++ [MQEvent.backpressure_start]
      else s.events) ∧
    (enqueueD cfg s d p mr).backpressureActive =
      (s.backpressureActive || decide (cfg.backpressureThreshold ≤ getQueueSize s)) := by
  have hfull : ¬ getQueueSize s ≥ cfg.maxQueueSize := Nat.not_le.mpr h
  simp only [enqueue, enqueueD, hfull, if_false, ge_iff_le]
  refine ⟨rfl, ?_, ?_⟩ <;>
    · split_ifs with hth <;> simp [lpush, hth] <;> cases hp : p <;> simp [hp]

/-- Witness for `messageQueue_backpressure_start_amended`: an enqueue
onto a queue whose backpressure flag is already active (threshold 1,
two messages queued, events already `[backpressure_start]`) emits
`backpressure_start` again. -/
theorem messageQueue_backpressure_start_amended_witness :
    (enqueue ⟨10, 1, 3⟩
      (enqueueD ⟨10, 1, 3⟩
        (enqueueD ⟨10, 1, 3⟩ mqInit 1 MessagePriority.medium 3)
        2 MessagePriority.medium 3)
      3 MessagePriority.medium 3).isOk = true ∧
    (enqueueD ⟨10, 1, 3⟩
      (enqueueD ⟨10, 1, 3⟩
        (enqueueD ⟨10, 1, 3⟩ mqInit 1 MessagePriority.medium 3)
        2 MessagePriority.medium 3)
      3 MessagePriority.medium 3).events =
      (if (1 : Nat) ≤ getQueueSize
          (enqueueD ⟨10, 1, 3⟩
            (enqueueD ⟨10, 1, 3⟩ mqInit 1 MessagePriority.medium 3)
            2 MessagePriority.medium 3) then
        (enqueueD ⟨10, 1, 3⟩
          (enqueueD ⟨10, 1, 3⟩ mqInit 1 MessagePriority.medium 3)
          2 MessagePriority.medium 3).events ++ [MQEvent.backpressure_start]
      else
        (enqueueD ⟨10, 1, 3⟩
          (enqueueD ⟨10, 1, 3⟩ mqInit 1 MessagePriority.medium 3)
          2 MessagePriority.medium 3).events) ∧
    (enqueueD ⟨10, 1, 3⟩
      (enqueueD ⟨10, 1, 3⟩
        (enqueueD ⟨10, 1, 3⟩ mqInit 1 MessagePriority.medium 3)
        2 MessagePriority.medium 3)
      3 MessagePriority.medium 3).backpressureActive =
      ((enqueueD ⟨10, 1, 3⟩
        (enqueueD ⟨10, 1, 3⟩ mqInit 1 MessagePriority.medium 3)
        2 MessagePriority.medium 3).backpressureActive ||
        decide ((1 : Nat) ≤ getQueueSize
          (enqueueD ⟨10, 1, 3⟩
            (enqueueD ⟨10, 1, 3⟩ mqInit 1 MessagePriority.medium 3)
            2 MessagePriority.medium 3))) :=
  messageQueue_backpressure_start_amended ⟨10, 1, 3⟩
    (enqueueD ⟨10, 1, 3⟩
      (enqueueD ⟨10, 1, 3⟩ mqInit 1 MessagePriority.medium 3)
      2 MessagePriority.medium 3)
    3 MessagePriority.medium 3 (by decide)

/-- C8: `dequeue` always takes the `RPOP` of the highest-priority
non-empty list, in the strict order high before medium before low, and
returns `none` only when all three lists are empty; consequently (last
two conjuncts) with one high-priority and one low-priority message
enqueued and a concurrency-1 consumer, the high-priority message is
handed to the listeners first, in either enqueue order. -/
theorem messageQueue_dequeue_strict_priority (s : MQState Nat) :
    (s.high ≠ [] →
      (dequeue s).map Prod.fst = s.high.getLast? ∧
      (dequeue s).map (fun x => (x.2.high, x.2.medium, x.2.low)) =
        some (s.high.dropLast, s.medium, s.low)) ∧
    (s.high = [] → s.medium ≠ [] →
      (dequeue s).map Prod.fst = s.medium.getLast? ∧
      (dequeue s).map (fun x => (x.2.high, x.2.medium, x.2.low)) =
        some (s.high, s.medium.dropLast, s.low)) ∧
    (s.high = [] → s.medium = [] → s.low ≠ [] →
      (dequeue s).map Prod.fst = s.low.getLast? ∧
      (dequeue s).map (fun x => (x.2.high, x.2.medium, x.2.low)) =
        some (s.high, s.medium, s.low.dropLast)) ∧
    (s.high = [] → s.medium = [] → s.low = [] → dequeue s = none) ∧
    (drainOrder ⟨10, 10, 3⟩ 2
      (enqueueD ⟨10, 10, 3⟩
        (enqueueD ⟨10, 10, 3⟩ mqInit 1 MessagePriority.high 3)
        2 MessagePriority.low 3)).map (fun m => m.priority) =
      [MessagePriority.high, MessagePriority.low] ∧
    (drainOrder ⟨10, 10, 3⟩ 2
      (enqueueD ⟨10, 10, 3⟩
        (enqueueD ⟨10, 10, 3⟩ mqInit 2 MessagePriority.low 3)
        1 MessagePriority.high 3)).map (fun m => m.priority) =
      [MessagePriority.high, MessagePriority.low] := by
  refine ⟨?_, ?_, ?_, ?_, by decide, by decide⟩
  · intro h
    rcases List.eq_nil_or_concat s.high with h0 | ⟨l, a, h0⟩
    · exact absurd h0 h
    · simp [dequeue, h0, rpop_concat, List.getLast?_concat, List.dropLast_concat]
  · intro h1 h2
    rcases List.eq_nil_or_concat s.medium with h0 | ⟨l, a, h0⟩
    · exact absurd h0 h2
    · simp [dequeue, h1, h0, rpop, rpop_concat, List.getLast?_concat,
        List.dropLast_concat]
  · intro h1 h2 h3
    rcases List.eq_nil_or_concat s.low with h0 | ⟨l, a, h0⟩
    · exact absurd h0 h3
    · simp [dequeue, h1, h2, h0, rpop, rpop_concat, List.getLast?_concat,
        List.dropLast_concat]
  · intro h1 h2 h3
    simp [dequeue, h1, h2, h3, rpop]

/-- Witness for `messageQueue_dequeue_strict_priority`: a state with
one high-priority and one low-priority message queued dequeues the
high-priority one. -/
theorem messageQueue_dequeue_strict_priority_witness :
    (dequeue (⟨[⟨0, 7, MessagePriority.high, 0, 3⟩],
        [], [⟨1, 8, MessagePriority.low, 0, 3⟩], false, 2, []⟩ : MQState Nat)).map
      Prod.fst =
      [(⟨0, 7, MessagePriority.high, 0, 3⟩ : QueueMessage Nat)].getLast? ∧
    (dequeue (⟨[⟨0, 7, MessagePriority.high, 0, 3⟩],
        [], [⟨1, 8, MessagePriority.low, 0, 3⟩], false, 2, []⟩ : MQState Nat)).map
      (fun x => (x.2.high, x.2.medium, x.2.low)) =
      some ([(⟨0, 7, MessagePriority.high, 0, 3⟩ : QueueMessage Nat)].dropLast,
        ([] : List (QueueMessage Nat)),
        [(⟨1, 8, MessagePriority.low, 0, 3⟩ : QueueMessage Nat)]) :=
  (messageQueue_dequeue_strict_priority
    ⟨[⟨0, 7, MessagePriority.high, 0, 3⟩],
      [], [⟨1, 8, MessagePriority.low, 0, 3⟩], false, 2, []⟩).1 (by decide)

/-! ## Rate limiter (`src/unnamed/part_015`, class `RateLimiter`)

The `Map<string, ClientState>` is embedded as a function
`String → Option ClientState`; `Date.now()` is the explicit `now`
argument. JavaScript's `now - state.windowStart >= windowMs` is a
comparison on (possibly negative) numbers, so it is taken over `Int`. -/

/-- `RateLimitConfig`. -/
structure RateLimitConfig where
  windowMs : Nat
  maxRequests : Nat
  deriving DecidableEq

/-- Per-client window state. -/
structure ClientState where
  requests : Nat
  windowStart : Nat
  deriving DecidableEq

/-- The rate limiter's client table. -/
structure RLState where
  clients : String → Option ClientState

/-- The empty table of a fresh `RateLimiter`. -/
def rlInit : RLState := { clients := fun _ => none }

/-- Point update of the client table (a `Map.set`). -/
def rlUpdate (m : String → Option ClientState) (k : String) (st : ClientState) :
    String → Option ClientState :=
  fun k' => if k' = k then some st else m k'

/-- `RateLimiter.isRateLimited` (part_015 lines 23–46): lazily creates
`{requests: 0, windowStart: now}` on first use; resets the count and
the window start when `now - windowStart ≥ windowMs`; returns `true`
without incrementing when the count is at or over `maxRequests`;
otherwise increments and returns `false`. The updated table entry is
written back in every case (the TS code mutates the object stored in
the map). -/
def isRateLimited (cfg : RateLimitConfig) (s : RLState) (clientId : String)
    (now : Nat) : Bool × RLState :=
  let st0 : ClientState :=
    match s.clients clientId with
    | some st => st
    | none => { requests := 0, windowStart := now }
  let st1 : ClientState :=
    if (now : Int) - (st0.windowStart : Int) ≥ (cfg.windowMs : Int) then
      { requests := 0, windowStart := now }
    else st0
  if st1.requests ≥ cfg.maxRequests then
    (true, { clients := rlUpdate s.clients clientId st1 })
  else
    let st2 : ClientState := { st1 with requests := st1.requests + 1 }
    (false, { clients := rlUpdate s.clients clientId st2 })

/-- C7: `isRateLimited` lazily creates window state on first use (after
any call the key's entry exists), resets the count once `windowMs` has
elapsed since the window start, returns `true` without changing the
entry when the in-window count is at or over `maxRequests`, and
otherwise increments the count and returns `false`; concretely, with
`{windowMs := 1000, maxRequests := 2}`, two calls for `"k"` return
`false, false`, a third call within the same window returns `true`,
and a call made 1000 ms after the window start returns `false`. -/
theorem rateLimiter_isRateLimited_spec (cfg : RateLimitConfig) (s : RLState)
    (k : String) (now : Nat) :
    (((isRateLimited cfg s k now).2).clients k).isSome = true ∧
    (∀ st : ClientState, s.clients k = some st →
      (now : Int) - (st.windowStart : Int) ≥ (cfg.windowMs : Int) →
      (isRateLimited cfg s k now).1 = decide (0 ≥ cfg.maxRequests) ∧
      (0 ≥ cfg.maxRequests →
        ((isRateLimited cfg s k now).2).clients k = some ⟨0, now⟩) ∧
      (0 < cfg.maxRequests →
        ((isRateLimited cfg s k now).2).clients k = some ⟨1, now⟩)) ∧
    (∀ st : ClientState, s.clients k = some st →
      ¬ ((now : Int) - (st.windowStart : Int) ≥ (cfg.windowMs : Int)) →
      st.requests ≥ cfg.maxRequests →
      (isRateLimited cfg s k now).1 = true ∧
      ((isRateLimited cfg s k now).2).clients k = some st) ∧
    (∀ st : ClientState, s.clients k = some st →
      ¬ ((now : Int) - (st.windowStart : Int) ≥ (cfg.windowMs : Int)) →
      st.requests < cfg.maxRequests →
      (isRateLimited cfg s k now).1 = false ∧
      ((isRateLimited cfg s k now).2).clients k =
        some ⟨st.requests + 1, st.windowStart⟩) ∧
    ((isRateLimited ⟨1000, 2⟩ rlInit "k" 0).1 = false ∧
      (isRateLimited ⟨1000, 2⟩ (isRateLimited ⟨1000, 2⟩ rlInit "k" 0).2 "k" 1).1 =
        false ∧
      (isRateLimited ⟨1000, 2⟩
        (isRateLimited ⟨1000, 2⟩ (isRateLimited ⟨1000, 2⟩ rlInit "k" 0).2 "k" 1).2
        "k" 2).1 = true ∧
      (isRateLimited ⟨1000, 2⟩
        (isRateLimited ⟨1000, 2⟩
          (isRateLimited ⟨1000, 2⟩ (isRateLimited ⟨1000, 2⟩ rlInit "k" 0).2 "k" 1).2
          "k" 2).2
        "k" 1000).1 = false) := by
  refine ⟨?_, ?_, ?_, ?_, by decide, by decide, by decide, by decide⟩
  · simp only [isRateLimited]
    split_ifs <;> simp [rlUpdate]
  · intro st hst helapsed
    simp only [isRateLimited, hst, helapsed, if_pos]
    refine ⟨?_, ?_, ?_⟩
    · split_ifs with h <;> simp_all
    · intro h
      rw [if_pos (by simpa using h)]
      simp [rlUpdate]
    · intro h
      rw [if_neg (by omega)]
      simp [rlUpdate]
  · intro st hst helapsed hcount
    rw [isRateLimited]
    simp only [hst, helapsed, if_neg, if_false]
    rw [if_pos hcount]
    simp [rlUpdate]
  · intro st hst helapsed hcount
    rw [isRateLimited]
    simp only [hst, helapsed, if_neg, if_false]
    rw [if_neg (by omega)]
    simp [rlUpdate]

/-- Witness for `rateLimiter_isRateLimited_spec`: an in-window entry at
the configured maximum is reported limited and left unchanged. -/
theorem rateLimiter_isRateLimited_spec_witness :
    (isRateLimited ⟨1000, 2⟩
      { clients := rlUpdate rlInit.clients "k" ⟨2, 5⟩ } "k" 10).1 = true ∧
    ((isRateLimited ⟨1000, 2⟩
      { clients := rlUpdate rlInit.clients "k" ⟨2, 5⟩ } "k" 10).2).clients "k" =
      some ⟨2, 5⟩ :=
  ((rateLimiter_isRateLimited_spec ⟨1000, 2⟩
    { clients := rlUpdate rlInit.clients "k" ⟨2, 5⟩ } "k" 10).2.2.1
    ⟨2, 5⟩ (by simp [rlUpdate]) (by decide) (by decide))

/-! ## WebSocket connection manager (`src/unnamed/part_016`, class
`WebSocketManager`, plus `src/src/websocket/MessageCompressor.ts`)

Wire payloads (`unknown` in TS) are embedded as the small universe
`Payload`; a thrown JavaScript `Error` is embedded by its message
string. `crypto.randomUUID()` is a fresh-id supply, `Date.now()` an
explicit argument. Since JSON text and zlib are external to the
repository, the serialized-text and compressed-bytes types are type
parameters `W`/`B` together with the external pairs
`stringify`/`parse` and `deflate`/`inflate` and their round-trip
contracts; the repository's own wrapper logic (threshold check,
compression-failure fallback, decompress of string frames) is embedded
on top. -/

/-- Stand-in for TS `unknown` message payloads: enough structure to
distinguish the error strings the manager produces from ordinary
handler values. -/
inductive Payload
  | str (s : String)
  | val (n : Nat)
  deriving DecidableEq

/-- The `status` field of a `response` envelope. -/
inductive ResponseStatus
  | success
  | errorStatus
  deriving DecidableEq

/-- A `request` envelope. -/
structure RequestMessage where
  correlationId : Nat
  timestamp : Nat
  action : String
  payload : Payload
  deriving DecidableEq

/-- A `response` envelope; `retryAfter = none` means the field is
absent (`sendError` spreads `retryAfter` in only when truthy). -/
structure ResponseMessage where
  correlationId : Nat
  timestamp : Nat
  status : ResponseStatus
  payload : Payload
  retryAfter : Option Nat
  deriving DecidableEq

/-- A `notification` envelope. -/
structure NotificationMessage where
  correlationId : Nat
  timestamp : Nat
  event : String
  payload : Payload
  deriving DecidableEq

/-- The tagged union `WebSocketMessage`. -/
inductive WSMessage
  | request (m : RequestMessage)
  | response (m : ResponseMessage)
  | notification (m : NotificationMessage)
  deriving DecidableEq

/-- `WebSocketManager.sendSuccess` (part_016 lines 293–310): a success
response carrying the handler's result under the given correlationId. -/
def sendSuccess (payload : Payload) (correlationId : Nat) (now : Nat) :
    ResponseMessage :=
  { correlationId := correlationId, timestamp := now
    status := ResponseStatus.success, payload := payload, retryAfter := none }

/-- `WebSocketManager.sendError` (part_016 lines 312–340): an error
response; when no correlationId is supplied, a fresh `randomUUID()`
(the `freshId` supply value) is used; `retryAfter` is included only
when truthy (nonzero). -/
def sendError (e : String) (correlationId? : Option Nat)
    (retryAfter? : Option Nat) (freshId now : Nat) : ResponseMessage :=
  { correlationId := correlationId?.getD freshId, timestamp := now
    status := ResponseStatus.errorStatus, payload := Payload.str e
    retryAfter :=
      match retryAfter? with
      | some r => if r = 0 then none else some r
      | none => none }

/-- The error text extracted in `handleRequest`'s catch:
`(error instanceof Error && error.message) ? error.message :
String(error)` — for a thrown `Error` whose message is empty (falsy),
`String(error)` yields `"Error"`. -/
def errorText (m : String) : String := if m = "" then "Error" else m

/-- `WebSocketManager.handleRequest` (part_016 lines 254–277): look up
the handler by action; no handler → `Unknown action` error response;
handler throwing → error response with the thrown message; handler
succeeding → success response; all under the request's correlationId,
and every branch produces a response (the handler exception is caught
and never propagates). -/
def handleRequest (handlers : String → Option (Payload → Except String Payload))
    (msg : RequestMessage) (freshId now : Nat) : ResponseMessage :=
  match handlers msg.action with
  | none =>
    sendError ("Unknown action: " ++ msg.action) (some msg.correlationId) none
      freshId now
  | some handler =>
    match handler msg.payload with
    | Except.ok result => sendSuccess result msg.correlationId now
    | Except.error e =>
      sendError (errorText e) (some msg.correlationId) none freshId now

/-- The guard section of `WebSocketManager.handleMessage` (part_016
lines 194–252) that can answer without a correlating inbound request:
a rate-limited client gets `Rate limit exceeded` (with the limiter's
reset time as `retryAfter`), and a frame that fails
decompression/JSON-parsing/schema validation (`decoded = none`) gets
`Invalid message format`; both without a correlationId, so `sendError`
generates a fresh one. A successfully decoded frame (`decoded =
some _`) is dispatched further and produces no response here. -/
def handleMessageGuards (rateLimited : Bool) (resetTime : Nat)
    (decoded : Option WSMessage) (freshId now : Nat) : Option ResponseMessage :=
  if rateLimited then
    some (sendError "Rate limit exceeded" none (some resetTime) freshId now)
  else
    match decoded with
    | none => some (sendError "Invalid message format" none none freshId now)
    | some _ => none

/-! ### Pending-request lifecycle (`sendRequest` / `handleResponse` /
the request timeout)

`pendingRequests : Map<string, PendingRequest>` is embedded as the
characteristic function of its key set (a TS `Map` cannot hold two
entries under one key; the entry's callbacks and timer handle exist
exactly while the key is present). Settlements of the returned promise
are recorded in an append-only ghost log. The three events are:
`send` — the tail of `sendRequest` (fresh correlationId, register
entry, arm timer); `responseArrived` — `handleResponse` (part_016
lines 279–291: absent key → no-op, else clear timer, delete entry,
resolve/reject by status); `timeoutFired` — the timer callback
(part_016 lines 153–156: delete entry, reject with the timeout error),
which the runtime can only run while the timer is armed, i.e. while
the entry exists — a stale `timeoutFired` is a no-op in the model and
unreachable in the runtime. -/

/-- How the promise returned by `sendRequest` settled. -/
inductive Settlement
  | resolved
  | rejectedByResponse
  | rejectedByTimeout
  deriving DecidableEq

/-- Pending-request table (as its key-set characteristic function),
settlement ghost log, and the fresh-correlationId supply. -/
structure WSMState where
  pending : Nat → Bool
  settleLog : List (Nat × Settlement)
  nextId : Nat

/-- A manager with no outstanding requests. -/
def wsInit : WSMState := { pending := fun _ => false, settleLog := [], nextId := 0 }

/-- Point update of the pending-key set. -/
def pendingSet (p : Nat → Bool) (cid : Nat) (b : Bool) : Nat → Bool :=
  fun c => if c = cid then b else p c

/-- The events that touch the pending-request table. -/
inductive WSEvent
  | send
  | responseArrived (cid : Nat) (st : ResponseStatus)
  | timeoutFired (cid : Nat)

/-- One event against the manager state (see the section comment for
the source lines each arm embeds). -/
def wsStep (s : WSMState) : WSEvent → WSMState
  | WSEvent.send =>
    { pending := pendingSet s.pending s.nextId true
      settleLog := s.settleLog, nextId := s.nextId + 1 }
  | WSEvent.responseArrived cid st =>
    if s.pending cid then
      { pending := pendingSet s.pending cid false
        settleLog := s.settleLog ++
          [(cid, match st with
            | ResponseStatus.success => Settlement.resolved
            | ResponseStatus.errorStatus => Settlement.rejectedByResponse)]
        nextId := s.nextId }
    else s
  | WSEvent.timeoutFired cid =>
    if s.pending cid then
      { pending := pendingSet s.pending cid false
        settleLog := s.settleLog ++ [(cid, Settlement.rejectedByTimeout)]
        nextId := s.nextId }
    else s

/-- Run a list of events. -/
def wsRun : WSMState → List WSEvent → WSMState
  | s, [] => s
  | s, e :: es => wsRun (wsStep s e) es

/-- Number of recorded settlements of the request `cid`. -/
def settledCount (s : WSMState) (cid : Nat) : Nat :=
  s.settleLog.countP (fun p => p.1 == cid)

/-- Reachability invariant of the pending-request machine: each
correlationId settles at most once, an outstanding request has not
settled, and every id that ever appeared came from the fresh supply. -/
def WSInv (s : WSMState) : Prop :=
  ∀ cid : Nat,
    settledCount s cid ≤ 1 ∧
    (s.pending cid = true → settledCount s cid = 0) ∧
    ((s.pending cid = true ∨ 0 < settledCount s cid) → cid < s.nextId)

theorem wsInv_init : WSInv wsInit := by
  intro cid
  simp [wsInit, settledCount]

theorem settledCount_append_single (s : WSMState) (pend : Nat → Bool)
    (cid' : Nat) (x : Settlement) (nid cid : Nat) :
    settledCount ⟨pend, s.settleLog ++ [(cid', x)], nid⟩ cid =
      settledCount s cid + (if cid' = cid then 1 else 0) := by
  by_cases hq : cid' = cid <;>
    simp [settledCount, List.countP_append, hq]

/-- Settling an outstanding request (by response or by timeout)
preserves the invariant. -/
theorem wsInv_settle (s : WSMState) (cid' : Nat) (x : Settlement)
    (h : WSInv s) (hp : s.pending cid' = true) :
    WSInv ⟨pendingSet s.pending cid' false, s.settleLog ++ [(cid', x)], s.nextId⟩ := by
  intro cid
  obtain ⟨h1, h2, h3⟩ := h cid
  have hcnt := settledCount_append_single s (pendingSet s.pending cid' false)
    cid' x s.nextId cid
  by_cases hc : cid = cid'
  · have hz : settledCount s cid = 0 := h2 (by rw [hc]; exact hp)
    refine ⟨?_, ?_, ?_⟩
    · rw [hcnt, if_pos hc.symm, hz]
    · intro hpend
      simp [pendingSet, hc] at hpend
    · intro _
      exact h3 (Or.inl (by rw [hc]; exact hp))
  · have hne : cid' ≠ cid := fun hh => hc hh.symm
    refine ⟨?_, ?_, ?_⟩
    · rw [hcnt, if_neg hne]
      simpa using h1
    · intro hpend
      have hpend' : s.pending cid = true := by
        simpa [pendingSet, hc] using hpend
      rw [hcnt, if_neg hne, h2 hpend']
    · intro hor
      apply h3
      rcases hor with hpend | hs
      · exact Or.inl (by simpa [pendingSet, hc] using hpend)
      · rw [hcnt, if_neg hne] at hs
        exact Or.inr (by simpa using hs)

theorem wsInv_step (s : WSMState) (e : WSEvent) (h : WSInv s) :
    WSInv (wsStep s e) := by
  cases e with
  | send =>
    intro cid
    obtain ⟨h1, h2, h3⟩ := h cid
    refine ⟨h1, ?_, ?_⟩
    · intro hp
      by_cases hc : cid = s.nextId
      · show settledCount s cid = 0
        by_contra hne
        have hpos : 0 < settledCount s cid := Nat.pos_of_ne_zero hne
        have := h3 (Or.inr hpos)
        omega
      · have hp' : s.pending cid = true := by
          simpa [wsStep, pendingSet, hc] using hp
        exact h2 hp'
    · intro hor
      show cid < s.nextId + 1
      rcases hor with hp | hs
      · by_cases hc : cid = s.nextId
        · omega
        · have hp' : s.pending cid = true := by
            simpa [wsStep, pendingSet, hc] using hp
          have := h3 (Or.inl hp')
          omega
      · have := h3 (Or.inr hs)
        omega
  | responseArrived cid' st =>
    by_cases hp : s.pending cid' = true
    · have := wsInv_settle s cid'
        (match st with
          | ResponseStatus.success => Settlement.resolved
          | ResponseStatus.errorStatus => Settlement.rejectedByResponse)
        h hp
      simpa [wsStep, hp] using this
    · have hp' : s.pending cid' = false := by
        simpa using hp
      simpa [wsStep, hp'] using h
  | timeoutFired cid' =>
    by_cases hp : s.pending cid' = true
    · have := wsInv_settle s cid' Settlement.rejectedByTimeout h hp
      simpa [wsStep, hp] using this
    · have hp' : s.pending cid' = false := by
        simpa using hp
      simpa [wsStep, hp'] using h

theorem wsInv_run (tr : List WSEvent) : WSInv (wsRun wsInit tr) := by
  suffices hgen : ∀ s, WSInv s → WSInv (wsRun s tr) from hgen wsInit wsInv_init
  induction tr with
  | nil => intro s hs; exact hs
  | cons e es ih =>
    intro s hs
    exact ih (wsStep s e) (wsInv_step s e hs)

/-- C5: along every event trace from the initial manager state, each
correlationId settles at most once (at most one of resolve,
reject-by-response, reject-by-timeout is ever recorded); an
outstanding request has no settlement yet; a response for an id that
is not pending (already settled or never sent) is a no-op on the
manager state; firing the timeout of an outstanding request settles it
exactly once and removes its table entry; and a `send` registers
exactly the one fresh entry — its correlationId was not in the table
and had never settled before (the table itself, a TS `Map`, cannot
hold two entries under one key). -/
theorem wsManager_pending_request_lifecycle (tr : List WSEvent) (cid : Nat) :
    settledCount (wsRun wsInit tr) cid ≤ 1 ∧
    ((wsRun wsInit tr).pending cid = true →
      settledCount (wsRun wsInit tr) cid = 0) ∧
    ((wsRun wsInit tr).pending cid = false →
      ∀ st, wsStep (wsRun wsInit tr) (WSEvent.responseArrived cid st) =
        wsRun wsInit tr) ∧
    ((wsRun wsInit tr).pending cid = true →
      settledCount (wsStep (wsRun wsInit tr) (WSEvent.timeoutFired cid)) cid = 1 ∧
      (wsStep (wsRun wsInit tr) (WSEvent.timeoutFired cid)).pending cid = false) ∧
    ((wsStep (wsRun wsInit tr) WSEvent.send).pending ((wsRun wsInit tr).nextId) =
      true ∧
      (wsRun wsInit tr).pending ((wsRun wsInit tr).nextId) = false ∧
      settledCount (wsRun wsInit tr) ((wsRun wsInit tr).nextId) = 0) := by
  have hinv := wsInv_run tr
  obtain ⟨h1, h2, h3⟩ := hinv cid
  obtain ⟨g1, g2, g3⟩ := hinv (wsRun wsInit tr).nextId
  have h5b : (wsRun wsInit tr).pending ((wsRun wsInit tr).nextId) = false := by
    cases hpb : (wsRun wsInit tr).pending ((wsRun wsInit tr).nextId) with
    | false => rfl
    | true =>
      have := g3 (Or.inl hpb)
      omega
  have h5c : settledCount (wsRun wsInit tr) ((wsRun wsInit tr).nextId) = 0 := by
    by_contra hne
    have := g3 (Or.inr (Nat.pos_of_ne_zero hne))
    omega
  refine ⟨h1, h2, ?_, ?_, ?_, h5b, h5c⟩
  · intro hp st
    simp [wsStep, hp]
  · intro hp
    constructor
    · have hc := settledCount_append_single (wsRun wsInit tr)
        (pendingSet (wsRun wsInit tr).pending cid false) cid
        Settlement.rejectedByTimeout (wsRun wsInit tr).nextId cid
      simp only [wsStep, hp, if_true]
      rw [hc, if_pos rfl, h2 hp]
    · simp [wsStep, hp, pendingSet]
  · simp [wsStep, pendingSet]

/-- Witness for `wsManager_pending_request_lifecycle`: after one
`send`, firing the request timeout settles correlationId 0 exactly
once and removes its entry. -/
theorem wsManager_pending_request_lifecycle_witness :
    settledCount (wsStep (wsRun wsInit [WSEvent.send]) (WSEvent.timeoutFired 0)) 0 =
      1 ∧
    (wsStep (wsRun wsInit [WSEvent.send]) (WSEvent.timeoutFired 0)).pending 0 =
      false :=
  (wsManager_pending_request_lifecycle [WSEvent.send] 0).2.2.2.1 (by rfl)

/-- C6: every inbound request frame gets exactly the described
response, always under the request's own correlationId, and the
dispatch path is total (a handler exception is caught, never
propagated): no registered handler → error response
`Unknown action: X`; registered handler returning a value → success
response with that value; registered handler throwing → error response
whose payload is the thrown message (for `Error("boom")`, exactly
`boom`); the last conjunct is the spec's `getPet`/`boom` scenario. -/
theorem wsManager_handleRequest_dispatch
    (handlers : String → Option (Payload → Except String Payload))
    (msg : RequestMessage) (freshId now : Nat) :
    (handlers msg.action = none →
      handleRequest handlers msg freshId now =
        { correlationId := msg.correlationId, timestamp := now
          status := ResponseStatus.errorStatus
          payload := Payload.str ("Unknown action: " ++ msg.action)
          retryAfter := none }) ∧
    (∀ h v, handlers msg.action = some h → h msg.payload = Except.ok v →
      handleRequest handlers msg freshId now =
        { correlationId := msg.correlationId, timestamp := now
          status := ResponseStatus.success, payload := v, retryAfter := none }) ∧
    (∀ h e, handlers msg.action = some h → h msg.payload = Except.error e →
      handleRequest handlers msg freshId now =
        { correlationId := msg.correlationId, timestamp := now
          status := ResponseStatus.errorStatus
          payload := Payload.str (errorText e), retryAfter := none }) ∧
    (handleRequest
      (fun a => if a = "getPet" then some (fun _ => Except.error "boom") else none)
      { correlationId := 77, timestamp := 0, action := "getPet"
        payload := Payload.val 1 } freshId now =
      { correlationId := 77, timestamp := now
        status := ResponseStatus.errorStatus, payload := Payload.str "boom"
        retryAfter := none }) := by
  refine ⟨?_, ?_, ?_, ?_⟩
  · intro hnone
    simp [handleRequest, hnone, sendError]
  · intro h v hsome hok
    simp [handleRequest, hsome, hok, sendSuccess]
  · intro h e hsome herr
    simp [handleRequest, hsome, herr, sendError]
  · simp [handleRequest, sendError, errorText]

/-- Witness for `wsManager_handleRequest_dispatch`: a handler
registered for `getPet` that throws `Error("boom")` yields the
`{status: error, payload: "boom"}` response under the request's
correlationId 77. -/
theorem wsManager_handleRequest_dispatch_witness :
    handleRequest
      (fun a => if a = "getPet" then some (fun _ => Except.error "boom") else none)
      { correlationId := 77, timestamp := 0, action := "getPet"
        payload := Payload.val 1 } 99 5 =
      { correlationId := 77, timestamp := 5
        status := ResponseStatus.errorStatus, payload := Payload.str (errorText "boom")
        retryAfter := none } :=
  (wsManager_handleRequest_dispatch
    (fun a => if a = "getPet" then some (fun _ => Except.error "boom") else none)
    { correlationId := 77, timestamp := 0, action := "getPet"
      payload := Payload.val 1 } 99 5).2.2.1
    (fun _ => Except.error "boom") "boom" (by simp) rfl

/-! ### Message compression and broadcast

`MessageCompressor` (src/src/websocket/MessageCompressor.ts) wraps
zlib: `compress` returns the string unchanged below the size
threshold, the deflated buffer otherwise, falling back to the
uncompressed string when deflation fails; `decompress` passes string
frames through and inflates buffers. The serialized-text type `W`, the
compressed-bytes type `B` and the external codecs are parameters. -/

/-- `WebSocket.readyState` values. -/
inductive ReadyState
  | CONNECTING
  | OPEN
  | CLOSING
  | CLOSED
  deriving DecidableEq

/-- The slice of `ClientInfo` that `broadcast` reads: the client id and
its socket's readyState. -/
structure WSClient where
  id : Nat
  readyState : ReadyState
  deriving DecidableEq

/-- `CompressionConfig` (`compressionLevel` is passed through to zlib
and does not affect which branch is taken). -/
structure CompressionConfig where
  compressionThreshold : Nat
  deriving DecidableEq

/-- `MessageCompressor.compress` (MessageCompressor.ts lines 22–36). -/
def compress {W B : Type} (cfg : CompressionConfig) (byteLength : W → Nat)
    (deflate : W → Option B) (message : W) : W ⊕ B :=
  if byteLength message < cfg.compressionThreshold then
    Sum.inl message
  else
    match deflate message with
    | some compressed => Sum.inr compressed
    | none => Sum.inl message

/-- `MessageCompressor.decompress` (MessageCompressor.ts lines 38–49). -/
def decompress {W B : Type} (inflate : B → Option W) (data : W ⊕ B) :
    Except String W :=
  match data with
  | Sum.inl s => Except.ok s
  | Sum.inr b =>
    match inflate b with
    | some s => Except.ok s
    | none => Except.error "Failed to decompress message"

/-- The single compressed frame `broadcast` computes once and sends to
every recipient: the notification envelope, serialized, through
`compress`. -/
def broadcastData {W B : Type} (cfg : CompressionConfig) (byteLength : W → Nat)
    (deflate : W → Option B) (stringify : NotificationMessage → W)
    (event : String) (payload : Payload) (freshCid now : Nat) : W ⊕ B :=
  compress cfg byteLength deflate
    (stringify
      { correlationId := freshCid, timestamp := now
        event := event, payload := payload })

/-- `WebSocketManager.broadcast` (part_016 lines 165–192): build one
notification envelope with a fresh correlationId, serialize and
compress it once, and send it to every client whose socket is `OPEN`
and that passes the optional filter; the result is the list of
(client id, sent frame) pairs. -/
def broadcast {W B : Type} (cfg : CompressionConfig) (byteLength : W → Nat)
    (deflate : W → Option B) (stringify : NotificationMessage → W)
    (clients : List WSClient) (event : String) (payload : Payload)
    (filter? : Option (WSClient → Bool)) (freshCid now : Nat) :
    List (Nat × (W ⊕ B)) :=
  (clients.filter (fun c =>
      c.readyState == ReadyState.OPEN &&
        (match filter? with
          | none => true
          | some f => f c))).map
    (fun c =>
      (c.id, broadcastData cfg byteLength deflate stringify event payload
        freshCid now))

/-- What a recipient reconstructs from a received frame:
`decompress`, then parse the serialized envelope. -/
def receivedEnvelope {W B : Type} (inflate : B → Option W)
    (parse : W → Option NotificationMessage) (d : W ⊕ B) :
    Option NotificationMessage :=
  match decompress inflate d with
  | Except.ok s => parse s
  | Except.error _ => none

/-- C9: for a `broadcast(event, payload)` with no filter — under the
round-trip contracts of the external codecs (`inflate ∘ deflate` and
`parse ∘ stringify` are identities) and uniqueness of client ids (the
clients live in a `Map` keyed by id) — every client whose socket is
`OPEN` at send time is sent the one compressed frame; decompressing
and parsing that frame yields exactly the notification envelope whose
`event` and `payload` are the broadcast inputs (so the repository's
compress/decompress pair is a round-trip identity on the serialized
envelope); and a client that is not `OPEN` is sent nothing. -/
theorem wsManager_broadcast_roundtrip {W B : Type} (cfg : CompressionConfig)
    (byteLength : W → Nat) (deflate : W → Option B) (inflate : B → Option W)
    (stringify : NotificationMessage → W) (parse : W → Option NotificationMessage)
    (hz : ∀ w b, deflate w = some b → inflate b = some w)
    (hp : ∀ m, parse (stringify m) = some m)
    (clients : List WSClient) (event : String) (payload : Payload)
    (freshCid now : Nat) (hnd : (clients.map WSClient.id).Nodup) :
    (∀ c ∈ clients, c.readyState = ReadyState.OPEN →
      (c.id, broadcastData cfg byteLength deflate stringify event payload
        freshCid now) ∈
        broadcast cfg byteLength deflate stringify clients event payload none
          freshCid now) ∧
    receivedEnvelope inflate parse
      (broadcastData cfg byteLength deflate stringify event payload freshCid
        now) =
      some { correlationId := freshCid, timestamp := now
             event := event, payload := payload } ∧
    (∀ c ∈ clients, c.readyState ≠ ReadyState.OPEN →
      ∀ d, (c.id, d) ∉
        broadcast cfg byteLength deflate stringify clients event payload none
          freshCid now) := by
  refine ⟨?_, ?_, ?_⟩
  · intro c hc hopen_c
    apply List.mem_map_of_mem
    apply List.mem_filter.mpr
    exact ⟨hc, by simp [hopen_c]⟩
  · unfold receivedEnvelope broadcastData compress decompress
    split_ifs with hsize
    · simp [hp]
    · cases hd : deflate (stringify
        { correlationId := freshCid, timestamp := now
          event := event, payload := payload }) with
      | none => simp [hp]
      | some b => simp [hz _ _ hd, hp]
  · intro c hc hnot d hmem
    unfold broadcast at hmem
    obtain ⟨c', hc', heq⟩ := List.mem_map.mp hmem
    have hid : c'.id = c.id := congrArg Prod.fst heq
    have hc'mem := (List.mem_filter.mp hc').1
    have hcond := (List.mem_filter.mp hc').2
    have hopen' : c'.readyState = ReadyState.OPEN := by
      simp only [Bool.and_eq_true, beq_iff_eq] at hcond
      exact hcond.1
    have : c' = c :=
      List.inj_on_of_nodup_map hnd hc'mem hc hid
    rw [this] at hopen'
    exact hnot hopen'

/-- Witness for `wsManager_broadcast_roundtrip`, instantiating the
external codecs with the identity serialization and a trivially
invertible compression (`W = B = NotificationMessage`), a byte length
above the threshold (so the deflate branch is exercised), one `OPEN`
and one `CLOSED` client: the `OPEN` client is sent the frame and
reconstructs the envelope `{event := "ev", payload := 5}`. -/
theorem wsManager_broadcast_roundtrip_witness :
    ((1 : Nat), broadcastData ⟨1024⟩ (fun _ => 2048) some
        (id : NotificationMessage → NotificationMessage) "ev" (Payload.val 5) 9 3) ∈
      broadcast ⟨1024⟩ (fun _ => 2048) some
        (id : NotificationMessage → NotificationMessage)
        [⟨1, ReadyState.OPEN⟩, ⟨2, ReadyState.CLOSED⟩] "ev" (Payload.val 5) none
        9 3 ∧
    receivedEnvelope some some
      (broadcastData ⟨1024⟩ (fun _ => 2048) some
        (id : NotificationMessage → NotificationMessage) "ev" (Payload.val 5) 9 3) =
      some { correlationId := 9, timestamp := 3
             event := "ev", payload := Payload.val 5 } := by
  have h := wsManager_broadcast_roundtrip ⟨1024⟩ (fun _ => 2048) some some
    (id : NotificationMessage → NotificationMessage) some
    (fun w b hh => by injection hh with h1; rw [h1]) (fun m => rfl)
    [⟨1, ReadyState.OPEN⟩, ⟨2, ReadyState.CLOSED⟩] "ev" (Payload.val 5) 9 3
    (by decide)
  exact ⟨h.1 ⟨1, ReadyState.OPEN⟩ (by simp) rfl, h.2.1⟩

/-- C10: both error responses that the manager produces without a
correlating inbound request — rate-limit-exceeded and
`Invalid message format` — are well-formed error response envelopes
whose correlationId is the freshly generated id; under the supply's
freshness (every correlationId the client has used is below the fresh
id), that correlationId matches none of the client's requests. -/
theorem wsManager_sendError_fresh_correlationId (sentIds : List Nat)
    (freshId now resetTime : Nat) (decoded : Option WSMessage)
    (hfresh : ∀ i ∈ sentIds, i < freshId) :
    handleMessageGuards true resetTime decoded freshId now =
      some { correlationId := freshId, timestamp := now
             status := ResponseStatus.errorStatus
             payload := Payload.str "Rate limit exceeded"
             retryAfter := if resetTime = 0 then none else some resetTime } ∧
    handleMessageGuards false resetTime none freshId now =
      some { correlationId := freshId, timestamp := now
             status := ResponseStatus.errorStatus
             payload := Payload.str "Invalid message format"
             retryAfter := none } ∧
    freshId ∉ sentIds := by
  refine ⟨?_, ?_, ?_⟩
  · simp [handleMessageGuards, sendError]
  · simp [handleMessageGuards, sendError]
  · intro hmem
    exact absurd (hfresh freshId hmem) (lt_irrefl freshId)

/-- Witness for `wsManager_sendError_fresh_correlationId`: the client
has used correlationIds 0, 1, 2 and the fresh id is 3. -/
theorem wsManager_sendError_fresh_correlationId_witness :
    handleMessageGuards true 250 none 3 4 =
      some { correlationId := 3, timestamp := 4
             status := ResponseStatus.errorStatus
             payload := Payload.str "Rate limit exceeded"
             retryAfter := if (250 : Nat) = 0 then none else some 250 } ∧
    handleMessageGuards false 250 none 3 4 =
      some { correlationId := 3, timestamp := 4
             status := ResponseStatus.errorStatus
             payload := Payload.str "Invalid message format"
             retryAfter := none } ∧
    (3 : Nat) ∉ [0, 1, 2] :=
  wsManager_sendError_fresh_correlationId [0, 1, 2] 3 4 250 none (by decide)

end PetStore
